import Mathlib

/-!
Verification of the AirQualityMonitoringAndPrediction data-consolidation core.

This file shallowly embeds the consolidation/merge engine of
`src/app/data_engineering/data_consolidation` (the `ConsolidationService`
domain logic, the `JsonProcessorAdapter` flatteners and CSV escaping, the
`FileMetadata` codec and epoch translation) and proves the spec's claims
about it.  External collaborators (boto3/S3, `json.loads`, pandas) are
modelled at their interface boundary, as the spec prescribes; everything
in `consolidation_service.py` and `json_processor_adapter.py` is
translated statement by statement.
-/

/-- Parsed JSON values, the result of `json.loads` at the collaborator
boundary.  Numbers are modelled as integers (the timestamps and counters
the engine compares are integral). -/
inductive Json where
  | null : Json
  | bool (b : Bool) : Json
  | num (n : Int) : Json
  | str (s : String) : Json
  | arr (elems : List Json) : Json
  | obj (fields : List (String × Json)) : Json

/-- Python `dict(items).get(key)`: the dictionary built from an item list
keeps, for each key, the value of its last binding (last-write-wins). -/
def dictGet (items : List (String × Json)) (key : String) : Option Json :=
  match items with
  | [] => none
  | (k, v) :: rest =>
    match dictGet rest key with
    | some w => some w
    | none => if k = key then some v else none

mutual
/-- `JsonProcessorAdapter.flatten_json` (adapters/json_processor_adapter.py,
lines 15-47): the loop over `json_data.items()`, producing the ordered
`items` list that Python turns into a dict.  `parent_key` and `separator`
are the function's keyword arguments. -/
def flattenFields (separator : String) : List (String × Json) → String → List (String × Json)
  | [], _ => []
  | (key, value) :: rest, parent_key =>
    let new_key := if parent_key = "" then key else parent_key ++ separator ++ key
    flattenValue separator value new_key ++ flattenFields separator rest parent_key

/-- One `value` of the loop body of `flatten_json`: dicts recurse, lists
are indexed element-wise, any other value is emitted at `new_key`. -/
def flattenValue (separator : String) : Json → String → List (String × Json)
  | .obj fields, new_key => flattenFields separator fields new_key
  | .arr elems, new_key => flattenElems separator elems new_key 0
  | v, new_key => [(new_key, v)]

/-- The `for i, item in enumerate(value)` loop of `flatten_json`: dict
elements recurse with the index appended to the key, any other element is
emitted at the indexed key. -/
def flattenElems (separator : String) : List Json → String → Nat → List (String × Json)
  | [], _, _ => []
  | .obj fields :: rest, new_key, i =>
    flattenFields separator fields (new_key ++ separator ++ toString i)
      ++ flattenElems separator rest new_key (i + 1)
  | item :: rest, new_key, i =>
    (new_key ++ separator ++ toString i, item) :: flattenElems separator rest new_key (i + 1)
end

/-- `flatten_json(json_data)` with the default arguments
`parent_key=""`, `separator="_"`, as the service calls it. -/
def flatten_json (json_data : List (String × Json)) : List (String × Json) :=
  flattenFields "_" json_data ""

mutual
/-- `AdvancedJsonProcessorAdapter.flatten_json` (lines 109-139): like the
basic flattener but an empty list becomes `"[]"` when `preserve_types`
is set and `""` otherwise, and `None` becomes the configured
`null_value`. -/
def advFlattenFields (preserve_types : Bool) (null_value : String) (separator : String) :
    List (String × Json) → String → List (String × Json)
  | [], _ => []
  | (key, value) :: rest, parent_key =>
    let new_key := if parent_key = "" then key else parent_key ++ separator ++ key
    advFlattenValue preserve_types null_value separator value new_key
      ++ advFlattenFields preserve_types null_value separator rest parent_key

/-- One `value` of the advanced flattener's loop body. -/
def advFlattenValue (preserve_types : Bool) (null_value : String) (separator : String) :
    Json → String → List (String × Json)
  | .obj fields, new_key => advFlattenFields preserve_types null_value separator fields new_key
  | .arr [], new_key => [(new_key, .str (if preserve_types then "[]" else ""))]
  | .arr elems, new_key => advFlattenElems preserve_types null_value separator elems new_key 0
  | .null, new_key => [(new_key, .str null_value)]
  | v, new_key => [(new_key, v)]

/-- The element loop of the advanced flattener. -/
def advFlattenElems (preserve_types : Bool) (null_value : String) (separator : String) :
    List Json → String → Nat → List (String × Json)
  | [], _, _ => []
  | .obj fields :: rest, new_key, i =>
    advFlattenFields preserve_types null_value separator fields (new_key ++ separator ++ toString i)
      ++ advFlattenElems preserve_types null_value separator rest new_key (i + 1)
  | item :: rest, new_key, i =>
    (new_key ++ separator ++ toString i, item)
      :: advFlattenElems preserve_types null_value separator rest new_key (i + 1)
end

/-- Predicate of `JsonProcessorAdapter.escape_csv_value` (lines 87-92):
the value contains a comma, double quote, newline or carriage return.
Strings are modelled as their character sequences. -/
def needsEscape (s : List Char) : Bool :=
  s.contains ',' || s.contains '"' || s.contains '\n' || s.contains '\r'

/-- Python `str_value.replace('\x22', '\x22\x22')`: every double quote is
doubled, character by character. -/
def doubleQuotes : List Char → List Char
  | [] => []
  | c :: rest => (if c = '"' then ['"', '"'] else [c]) ++ doubleQuotes rest

/-- `JsonProcessorAdapter.escape_csv_value` (lines 71-97) on a string
value: wrap in double quotes, doubling embedded quotes, exactly when the
value contains a comma, quote, newline or carriage return. -/
def escape_csv_value (s : List Char) : List Char :=
  if needsEscape s then '"' :: (doubleQuotes s ++ ['"']) else s

/-- Inverse of quote doubling, as an RFC-4180 reader of a quoted field
body performs it: each pair of double quotes collapses to one. -/
def collapseQuotes : List Char → List Char
  | '"' :: '"' :: rest => '"' :: collapseQuotes rest
  | c :: rest => c :: collapseQuotes rest
  | [] => []

/-- CSV reader for a single field: a field starting with a double quote
is unwrapped (final quote dropped, doubled quotes collapsed), any other
field is taken verbatim. -/
def unescape_csv_value (s : List Char) : List Char :=
  match s with
  | '"' :: rest => collapseQuotes rest.dropLast
  | _ => s

/-- `ConsolidationService._micropython_to_unix_timestamp` (lines 350-364):
the device epoch 2000-01-01 is 946684800 seconds after the Unix epoch. -/
def micropython_to_unix_timestamp (mp_timestamp : Int) : Int :=
  mp_timestamp + 946684800

/-- The inline conversion of `_get_new_files` (line 188):
`last_entry_micropython = last_entry_unix - 946684800`. -/
def unix_to_micropython_timestamp (last_entry_unix : Int) : Int :=
  last_entry_unix - 946684800

/-- Python `sorted(set(keys))` over strings: the deduplicated key set in
lexicographic order (used at consolidation_service.py lines 147-150 and
line 282). -/
def sortedColumns (keys : List String) : List String :=
  keys.toFinset.sort (· ≤ ·)

/-- The ColumnSet of a batch of flattened rows, each given by its key
list: the sorted, deduplicated union of all keys. -/
def columnSet (rows : List (List String)) : List String :=
  sortedColumns rows.flatten

/-- `FileMetadata` (domain/models/file_metadata.py).  The Python
dataclass holds `datetime` values; they are modelled by their integer
Unix-second timestamps, which is how the service reads and writes them
(`int(dt.timestamp())` / `datetime.fromtimestamp`). -/
structure FileMetadata where
  created_at : Int
  last_entry : Int
  description : String
  total_records : Int
  columns : Nat
  files_processed : Int
  custom_data : List (String × Json) := []

/-- The JSON dictionary parsed out of the artifact's `#` header line by
`json.loads` (an external collaborator): the six named fields, each
possibly absent, plus passthrough entries.  A header whose JSON does not
parse, or whose fields have types on which `FileMetadata.from_dict`
raises, is classified as corrupt at the boundary (see `ArtifactDoc`). -/
structure MetaDict where
  date_created : Option Int := none
  last_entry : Option Int := none
  data_description : Option String := none
  total_records : Option Int := none
  columns : Option Nat := none
  files_processed : Option Int := none
  custom_data : List (String × Json) := []

/-- `FileMetadata.from_dict` (file_metadata.py lines 29-51): each field
falls back to a default when absent (`data.get(key, 0)` or `""`). -/
def FileMetadata.from_dict (data : MetaDict) : FileMetadata where
  created_at := data.date_created.getD 0
  last_entry := data.last_entry.getD 0
  description := data.data_description.getD ""
  total_records := data.total_records.getD 0
  columns := data.columns.getD 0
  files_processed := data.files_processed.getD 0
  custom_data := data.custom_data

/-- The legacy-epoch fix of `consolidate_files` (lines 63-69): a header
`last_entry` that is an integer below 1\_000\_000\_000 is assumed to be a
MicroPython timestamp and converted to Unix before `from_dict`. -/
def fixLastEntry (metadata_dict : MetaDict) : MetaDict :=
  match metadata_dict.last_entry with
  | some last_entry =>
    if last_entry < 1000000000 then
      { metadata_dict with last_entry := some (micropython_to_unix_timestamp last_entry) }
    else metadata_dict
  | none => metadata_dict

/-- A pandas DataFrame at the collaborator boundary: column labels and
rows of cell values (a missing cell is `Json.null`, pandas' NaN/None). -/
structure DataFrame where
  columns : List String
  rows : List (List Json)

/-- pandas `DataFrame.empty`: true when there are no rows or no
columns. -/
def DataFrame.isEmpty (df : DataFrame) : Bool :=
  df.rows.isEmpty || df.columns.isEmpty

/-- pandas `pd.DataFrame(records, columns=cols)` built from a list of
dictionaries: one row per record, cells looked up by column label,
missing keys becoming NaN (modelled `Json.null`). -/
def dataFrameOfDicts (records : List (List (String × Json))) (cols : List String) : DataFrame where
  columns := cols
  rows := records.map (fun flat => cols.map (fun c => (dictGet flat c).getD .null))

/-- pandas `df.reindex(columns=cols, fill_value=None)`: rows are
re-arranged to the new column list, columns the frame lacks filled with
null. -/
def DataFrame.reindex (df : DataFrame) (cols : List String) : DataFrame where
  columns := cols
  rows := df.rows.map (fun r =>
    cols.map (fun c =>
      match df.columns.findIdx? (· = c) with
      | some i => r.getD i .null
      | none => .null))

/-- pandas `pd.concat([a, b], ignore_index=True)` of two frames already
aligned to the same columns. -/
def DataFrame.concat (a b : DataFrame) : DataFrame where
  columns := a.columns
  rows := a.rows ++ b.rows

/-- Rendering of one cell by pandas `to_csv` (string form of the value,
empty for null), modelled at the collaborator boundary. -/
def cellToString : Json → String
  | .null => ""
  | .bool b => if b then "True" else "False"
  | .num n => toString n
  | .str s => s
  | .arr _ => ""
  | .obj _ => ""

/-- pandas `df.to_csv(index=False)` at the collaborator boundary: the
comma-joined header line, then one line per row, cells quoted by the CSV
escaping rules. -/
def DataFrame.to_csv (df : DataFrame) : String :=
  String.intercalate "," df.columns ++ "\n"
    ++ String.join (df.rows.map (fun r =>
        String.intercalate "," (r.map (fun v => String.mk (escape_csv_value (cellToString v).toList))) ++ "\n"))

/-- `FileMetadata.to_dict` rendered through
`json.dumps(..., separators=(",", ": "))` and prefixed with `#`
(consolidation_service.py lines 167-169 and 314), at the json
collaborator boundary; passthrough custom entries are rendered by their
cell string. -/
def metadataLine (m : FileMetadata) : String :=
  "#" ++ "\x7b\"date_created\": " ++ toString m.created_at
    ++ ",\"last_entry\": " ++ toString m.last_entry
    ++ ",\"data_description\": \"" ++ m.description ++ "\""
    ++ ",\"total_records\": " ++ toString m.total_records
    ++ ",\"columns\": " ++ toString m.columns
    ++ ",\"files_processed\": " ++ toString m.files_processed
    ++ String.join (m.custom_data.map (fun kv => ",\"" ++ kv.1 ++ "\": " ++ cellToString kv.2))
    ++ "\x7d"

/-- `ConsolidationResult` (domain/models/file_metadata.py lines 54-62). -/
structure ConsolidationResult where
  success : Bool
  csv_content : String
  metadata : FileMetadata
  files_processed : Nat
  error_message : Option String := none

/-- Outcome of fetching the consolidated artifact and parsing its first
line, as `consolidate_files` lines 54-83 case-split on it.  `noHeader`:
the file downloaded but its first line does not start with `#`;
`corruptHeader`: the first line starts with `#` but `json.loads`,
`FileMetadata.from_dict` or `pd.read_csv` of the body raised;
`parsed`: header dictionary and existing CSV body both parsed. -/
inductive ArtifactDoc where
  | noHeader : ArtifactDoc
  | corruptHeader (msg : String) : ArtifactDoc
  | parsed (header : MetaDict) (body : DataFrame) : ArtifactDoc

/-- The storage port plus the external parsers, one run's worth of
collaborator behaviour.  `artifactContent` is
`get_file_content(consolidated_filename)` composed with header/body
parsing (`.error` = the fetch raised, e.g. NoSuchKey); `fileList` is
`list_files()` (`.error` = it raised); `sourceObject p` is
`get_file_content(p)` composed with `json.loads` (`none` = either step
raised or the document is not a JSON object); `storeOk` is the boolean
returned by `store_file`. -/
structure StorageEnv where
  artifactContent : Except String ArtifactDoc
  fileList : Except String (List String)
  sourceObject : String → Option (List (String × Json))
  storeOk : Bool

/-- The numeric view Python's `isinstance(x, (int, float))` check admits
for a value fetched with `.get(key, 0)`: an absent key defaults to the
integer 0, a JSON number is itself, a JSON boolean is its int value
(Python `bool` is an `int` subtype), anything else is non-numeric. -/
def numValue : Option Json → Option Int
  | none => some 0
  | some (.num n) => some n
  | some (.bool b) => some (if b then 1 else 0)
  | some _ => none

/-- The timestamp `_get_new_files` derives for one candidate file (lines
199-224): fetch the content, parse it, flatten it, and read the
`timestamp` key; `none` when any step raises or the value is not
numeric, in which case the file is skipped. -/
def contentTimestamp (env : StorageEnv) (file_path : String) : Option Int :=
  match env.sourceObject file_path with
  | none => none
  | some json_data => numValue (dictGet (flatten_json json_data) "timestamp")

/-- `ConsolidationService._get_new_files` (lines 180-227): list all
files and keep those whose content timestamp is strictly greater than
the threshold converted to the device epoch; per-file errors skip the
file, a listing error propagates. -/
def getNewFiles (env : StorageEnv) (last_entry_unix : Int) : Except String (List String) :=
  let last_entry_micropython := unix_to_micropython_timestamp last_entry_unix
  match env.fileList with
  | .error e => .error e
  | .ok all_files =>
    .ok (all_files.filter (fun file_path =>
      match contentTimestamp env file_path with
      | some json_timestamp => decide (json_timestamp > last_entry_micropython)
      | none => false))

/-- The running accumulator of the file loop in `_process_json_files`
(lines 242-277). -/
structure ProcessAcc where
  all_flattened_data : List (List (String × Json))
  all_keys : Finset String
  latest_timestamp : Option Int
  processed_count : Nat

/-- The latest-timestamp tracking of the `_process_json_files` loop
(lines 260-268): read `metadata_timestamp` from the flattened row
(default 0), ignore non-numeric or non-positive values, convert
device-epoch values (below 1\_000\_000\_000) to Unix, and keep the
maximum seen so far. -/
def updateLatest (latest_timestamp : Option Int) (flattened : List (String × Json)) : Option Int :=
  match numValue (dictGet flattened "metadata_timestamp") with
  | some timestamp =>
    if timestamp > 0 then
      let ts := if timestamp < 1000000000 then micropython_to_unix_timestamp timestamp else timestamp
      match latest_timestamp with
      | none => some ts
      | some cur => if ts > cur then some ts else latest_timestamp
    else latest_timestamp
  | none => latest_timestamp

/-- One iteration of the `_process_json_files` loop (lines 250-277):
fetch and parse the file (any error skips it), accumulate the flattened
row, its keys and the count, and track the maximum
`metadata_timestamp`. -/
def processStep (env : StorageEnv) (acc : ProcessAcc) (file_path : String) : ProcessAcc :=
  match env.sourceObject file_path with
  | none => acc
  | some json_data =>
    let flattened := flatten_json json_data
    { all_flattened_data := acc.all_flattened_data ++ [flattened]
      all_keys := acc.all_keys ∪ (flattened.map Prod.fst).toFinset
      latest_timestamp := updateLatest acc.latest_timestamp flattened
      processed_count := acc.processed_count + 1 }

/-- `ConsolidationService._process_json_files` (lines 229-316): run the
file loop, sort the accumulated key set, build the DataFrame, and create
or update the metadata; `now` is `datetime.now()`. -/
def processJsonFiles (env : StorageEnv) (now : Int) (file_paths : List String)
    (existing_metadata : Option FileMetadata) : String × FileMetadata × DataFrame :=
  let acc := file_paths.foldl (processStep env) ⟨[], ∅, none, 0⟩
  let sorted_keys := acc.all_keys.sort (· ≤ ·)
  let df := dataFrameOfDicts acc.all_flattened_data sorted_keys
  let lastEntry : Int :=
    match acc.latest_timestamp with
    | some t => if t = 0 then now else t
    | none => now
  let new_metadata : FileMetadata :=
    match existing_metadata with
    | some em =>
      { created_at := em.created_at
        last_entry := lastEntry
        description := "Updated: processed " ++ toString acc.processed_count ++ " new files"
        total_records := em.total_records + acc.all_flattened_data.length
        columns := sorted_keys.length
        files_processed := em.files_processed + acc.processed_count }
    | none =>
      { created_at := now
        last_entry := lastEntry
        description := "Initial consolidation: processed " ++ toString acc.processed_count ++ " files"
        total_records := acc.all_flattened_data.length
        columns := sorted_keys.length
        files_processed := acc.processed_count }
  (metadataLine new_metadata ++ "\n" ++ df.to_csv, new_metadata, df)

/-- `ConsolidationService._append_new_data` (lines 113-178): the
incremental path.  An empty candidate list is the no-op result with the
prior metadata unchanged; otherwise process the new files, align the old
and new frames on the sorted union of their columns, and store. -/
def appendNewData (env : StorageEnv) (now : Int) (existing_metadata : FileMetadata)
    (df_existing : DataFrame) : Except String ConsolidationResult :=
  let last_entry_unix := existing_metadata.last_entry
  match getNewFiles env last_entry_unix with
  | .error e => .error e
  | .ok new_files =>
    if new_files.isEmpty then
      .ok { success := true
            csv_content := ""
            metadata := existing_metadata
            files_processed := 0
            error_message := some "No new files to process" }
    else
      let processed := processJsonFiles env now new_files (some existing_metadata)
      let updated_metadata := processed.2.1
      let df_new := processed.2.2
      let df_final :=
        if ¬ df_existing.isEmpty ∧ ¬ df_new.isEmpty then
          let all_columns := sortedColumns (df_existing.columns ++ df_new.columns)
          (df_existing.reindex all_columns).concat (df_new.reindex all_columns)
        else if ¬ df_existing.isEmpty then df_existing
        else df_new
      let csv_str := metadataLine updated_metadata ++ "\n" ++ df_final.to_csv
      .ok { success := env.storeOk
            csv_content := csv_str
            metadata := updated_metadata
            files_processed := new_files.length
            error_message := none }

/-- `ConsolidationService._create_empty_metadata` (lines 400-414):
`datetime(2020, 1, 1)` is Unix second 1577836800. -/
def createEmptyMetadata (now : Int) : FileMetadata where
  created_at := now
  last_entry := 1577836800
  description := "Empty consolidation"
  total_records := 0
  columns := 0
  files_processed := 0

/-- `ConsolidationService._generate_initial_csv` (lines 370-398): list
every file; an empty listing is a successful empty run, otherwise
process all files and store. -/
def generateInitialCsv (env : StorageEnv) (now : Int) : Except String ConsolidationResult :=
  match env.fileList with
  | .error e => .error e
  | .ok all_files =>
    if all_files.isEmpty then
      .ok { success := true
            csv_content := ""
            metadata := createEmptyMetadata now
            files_processed := 0
            error_message := none }
    else
      let processed := processJsonFiles env now all_files none
      let metadata := processed.2.1
      let df := processed.2.2
      let csv_str := metadataLine metadata ++ "\n" ++ df.to_csv
      .ok { success := env.storeOk
            csv_content := csv_str
            metadata := metadata
            files_processed := all_files.length
            error_message := none }

/-- The initial-consolidation path of `consolidate_files` with its outer
exception handler (lines 99-111): a raising initial run becomes the
failure result with the raised message. -/
def initialRunPath (env : StorageEnv) (now : Int) : ConsolidationResult :=
  match generateInitialCsv env now with
  | .ok r => r
  | .error e =>
    { success := false
      csv_content := ""
      metadata := createEmptyMetadata now
      files_processed := 0
      error_message := some e }

/-- `ConsolidationService.consolidate_files` (lines 34-111).  A fetch
failure, a first line without `#`, or an unparsable header all fall
through to initial consolidation (the inner `except` at line 93 also
catches everything the incremental path raises); an extracted header is
epoch-fixed and decoded, and the incremental path runs.  The function is
total: no failure escapes the boundary. -/
def consolidate_files (env : StorageEnv) (now : Int) : ConsolidationResult :=
  match env.artifactContent with
  | .error _ => initialRunPath env now
  | .ok .noHeader => initialRunPath env now
  | .ok (.corruptHeader _) => initialRunPath env now
  | .ok (.parsed header body) =>
    let existing_metadata := FileMetadata.from_dict (fixLastEntry header)
    match appendNewData env now existing_metadata body with
    | .ok r => r
    | .error _ => initialRunPath env now

/-- Artifact header for the incremental-run scenario environment: 2
records consolidated so far, `last_entry` at Unix second 1700000000. -/
def headerC1 : MetaDict where
  date_created := some 1690000000
  last_entry := some 1700000000
  data_description := some "sensor data"
  total_records := some 2
  columns := some 2
  files_processed := some 2

/-- Existing CSV body for the incremental-run scenario: two rows over
two columns. -/
def bodyC1 : DataFrame where
  columns := ["metadata_timestamp", "measurements_temperature"]
  rows := [[.num 753310000, .num 27], [.num 753315200, .num 28]]

/-- Incremental-run scenario environment: a parsed artifact with the
header above, three candidate objects of which one has a device
timestamp at or below the threshold (700000000, Unix 1646684800) and
two are strictly newer (800000000 and 900000000). -/
def envC1 : StorageEnv where
  artifactContent := .ok (.parsed headerC1 bodyC1)
  fileList := .ok ["raw-data/airq_a.json", "raw-data/airq_b.json", "raw-data/airq_c.json"]
  sourceObject := fun p =>
    if p = "raw-data/airq_a.json" then
      some [("timestamp", Json.num 700000000), ("metadata_timestamp", Json.num 700000000)]
    else if p = "raw-data/airq_b.json" then
      some [("timestamp", Json.num 800000000), ("metadata_timestamp", Json.num 800000000)]
    else if p = "raw-data/airq_c.json" then
      some [("timestamp", Json.num 900000000), ("metadata_timestamp", Json.num 900000000)]
    else none
  storeOk := true

/-- Header for the no-op run environment. -/
def headerC2 : MetaDict where
  date_created := some 1690000000
  last_entry := some 1700000000
  data_description := some "sensor data"
  total_records := some 2
  columns := some 2
  files_processed := some 2

/-- No-op environment: a parsed artifact and an empty source listing, so
the incremental candidate list is empty. -/
def envC2 : StorageEnv where
  artifactContent := .ok (.parsed headerC2 bodyC1)
  fileList := .ok []
  sourceObject := fun _ => none
  storeOk := true

/-- Error-path environment: the artifact fetch raises (missing object)
and the source listing raises as well. -/
def envC3 : StorageEnv where
  artifactContent := .error "NoSuchKey"
  fileList := .error "AccessDenied"
  sourceObject := fun _ => none
  storeOk := true

/-- Initial-run environment with one well-formed source object and one
whose content is not valid JSON (its fetch/parse raises). -/
def envC4 : StorageEnv where
  artifactContent := .error "NoSuchKey"
  fileList := .ok ["raw-data/airq_a.json", "raw-data/airq_bad.json"]
  sourceObject := fun p =>
    if p = "raw-data/airq_a.json" then
      some [("metadata_timestamp", Json.num 800000000), ("measurements_temperature", Json.num 27)]
    else none
  storeOk := true

/-! ### Helper lemmas -/

theorem collapse_doubleQuotes (s : List Char) : collapseQuotes (doubleQuotes s) = s := by
  induction s with
  | nil => rfl
  | cons c rest ih =>
    by_cases hc : c = '"'
    · subst hc
      simp [doubleQuotes, collapseQuotes, ih]
    · simp only [doubleQuotes, if_neg hc, List.singleton_append]
      rw [collapseQuotes, ih]
      intro _ hcq _
      exact hc hcq

theorem count_doubleQuotes (s : List Char) :
    (doubleQuotes s).count '"' = 2 * s.count '"' := by
  induction s with
  | nil => rfl
  | cons c rest ih =>
    by_cases hc : c = '"'
    · subst hc
      simp [doubleQuotes, List.count_cons, ih]
      omega
    · simp [doubleQuotes, hc, List.count_cons, ih]

theorem needsEscape_head_quote (rest : List Char) : needsEscape ('"' :: rest) = true := by
  simp [needsEscape]

theorem contentTimestamp_isSome {env : StorageEnv} {p : String} {n : Int}
    (h : contentTimestamp env p = some n) : (env.sourceObject p).isSome = true := by
  unfold contentTimestamp at h
  cases hs : env.sourceObject p
  · rw [hs] at h
    cases h
  · rfl

theorem processStep_of_none {env : StorageEnv} {acc : ProcessAcc} {p : String}
    (h : env.sourceObject p = none) : processStep env acc p = acc := by
  simp [processStep, h]

theorem processStep_of_some {env : StorageEnv} {acc : ProcessAcc} {p : String}
    {j : List (String × Json)} (h : env.sourceObject p = some j) :
    processStep env acc p =
      { all_flattened_data := acc.all_flattened_data ++ [flatten_json j]
        all_keys := acc.all_keys ∪ ((flatten_json j).map Prod.fst).toFinset
        latest_timestamp := updateLatest acc.latest_timestamp (flatten_json j)
        processed_count := acc.processed_count + 1 } := by
  simp [processStep, h]

theorem foldl_processStep_counts (env : StorageEnv) (paths : List String) (acc : ProcessAcc) :
    ((paths.foldl (processStep env) acc).processed_count =
      acc.processed_count + paths.countP (fun p => (env.sourceObject p).isSome)) ∧
    ((paths.foldl (processStep env) acc).all_flattened_data.length =
      acc.all_flattened_data.length + paths.countP (fun p => (env.sourceObject p).isSome)) := by
  induction paths generalizing acc with
  | nil => simp
  | cons p ps ih =>
    rcases hs : env.sourceObject p with _ | j
    · rw [List.foldl_cons, processStep_of_none hs, List.countP_cons]
      have h := ih acc
      simp [hs, h.1, h.2]
    · rw [List.foldl_cons, processStep_of_some hs, List.countP_cons]
      have h := ih { all_flattened_data := acc.all_flattened_data ++ [flatten_json j]
                     all_keys := acc.all_keys ∪ ((flatten_json j).map Prod.fst).toFinset
                     latest_timestamp := updateLatest acc.latest_timestamp (flatten_json j)
                     processed_count := acc.processed_count + 1 }
      simp [hs] at h ⊢
      omega

theorem processJsonFiles_incremental_fields (env : StorageEnv) (now : Int)
    (paths : List String) (em : FileMetadata) :
    ((processJsonFiles env now paths (some em)).2.1.created_at = em.created_at) ∧
    ((processJsonFiles env now paths (some em)).2.1.total_records =
      em.total_records + paths.countP (fun p => (env.sourceObject p).isSome)) ∧
    ((processJsonFiles env now paths (some em)).2.1.files_processed =
      em.files_processed + paths.countP (fun p => (env.sourceObject p).isSome)) := by
  have h := foldl_processStep_counts env paths ⟨[], ∅, none, 0⟩
  have hlen : (paths.foldl (processStep env) ⟨[], ∅, none, 0⟩).all_flattened_data.length
      = paths.countP (fun p => (env.sourceObject p).isSome) := by simpa using h.2
  have hcnt : (paths.foldl (processStep env) ⟨[], ∅, none, 0⟩).processed_count
      = paths.countP (fun p => (env.sourceObject p).isSome) := by simpa using h.1
  refine ⟨rfl, ?_, ?_⟩
  · simp only [processJsonFiles]
    rw [hlen]
  · simp only [processJsonFiles]
    rw [hcnt]

theorem processJsonFiles_initial_fields (env : StorageEnv) (now : Int) (paths : List String) :
    ((processJsonFiles env now paths none).2.1.total_records =
      (paths.countP (fun p => (env.sourceObject p).isSome) : Int)) ∧
    ((processJsonFiles env now paths none).2.1.files_processed =
      (paths.countP (fun p => (env.sourceObject p).isSome) : Int)) := by
  have h := foldl_processStep_counts env paths ⟨[], ∅, none, 0⟩
  have hlen : (paths.foldl (processStep env) ⟨[], ∅, none, 0⟩).all_flattened_data.length
      = paths.countP (fun p => (env.sourceObject p).isSome) := by simpa using h.2
  have hcnt : (paths.foldl (processStep env) ⟨[], ∅, none, 0⟩).processed_count
      = paths.countP (fun p => (env.sourceObject p).isSome) := by simpa using h.1
  refine ⟨?_, ?_⟩
  · simp only [processJsonFiles]
    rw [hlen]
  · simp only [processJsonFiles]
    rw [hcnt]

theorem consolidate_of_parsed {env : StorageEnv} {now : Int} {header : MetaDict}
    {body : DataFrame} (ha : env.artifactContent = .ok (.parsed header body)) :
    consolidate_files env now =
      match appendNewData env now (FileMetadata.from_dict (fixLastEntry header)) body with
      | .ok r => r
      | .error _ => initialRunPath env now := by
  unfold consolidate_files
  rw [ha]

/-! ### Claim theorems -/

/-- C7: converting a device-epoch (2000-01-01) timestamp to the standard
epoch adds exactly 946684800 seconds, the device-epoch conversion
subtracts it, and the two are exact inverses on every integer. -/
theorem claim_C7_epoch_round_trip (t : Int) :
    micropython_to_unix_timestamp t = t + 946684800 ∧
    unix_to_micropython_timestamp t = t - 946684800 ∧
    unix_to_micropython_timestamp (micropython_to_unix_timestamp t) = t := by
  refine ⟨rfl, rfl, ?_⟩
  unfold micropython_to_unix_timestamp unix_to_micropython_timestamp
  omega

/-- C8: `escape_csv_value` wraps the value in double quotes and doubles
every embedded double quote exactly when it contains a comma, double
quote, carriage return or newline, returns it unchanged otherwise, and
unescaping the escaped form recovers the original string. -/
theorem claim_C8_csv_escaping (s : List Char) :
    (needsEscape s = true → escape_csv_value s = '"' :: (doubleQuotes s ++ ['"'])) ∧
    (needsEscape s = false → escape_csv_value s = s) ∧
    (doubleQuotes s).count '"' = 2 * s.count '"' ∧
    unescape_csv_value (escape_csv_value s) = s := by
  refine ⟨fun h => by simp [escape_csv_value, h], fun h => by simp [escape_csv_value, h],
    count_doubleQuotes s, ?_⟩
  by_cases h : needsEscape s
  · rw [escape_csv_value, if_pos h]
    show collapseQuotes (doubleQuotes s ++ ['"']).dropLast = s
    rw [List.dropLast_concat, collapse_doubleQuotes]
  · rw [escape_csv_value, if_neg h]
    cases s with
    | nil => rfl
    | cons c rest =>
      have hc : c ≠ '"' := by
        intro hcq
        subst hcq
        exact h (needsEscape_head_quote rest)
      unfold unescape_csv_value
      split
      next rest' heq =>
        injection heq with h1 h2
        exact absurd h1 hc
      next => rfl

/-- C9: the column set of a batch is the lexicographically sorted,
deduplicated union of all flattened keys, and it is invariant under any
permutation of the input rows (and under swapping the existing and new
column lists merged during an incremental run). -/
theorem claim_C9_columnset_deterministic (rows rows' : List (List String))
    (a b : List String) :
    (columnSet rows).Sorted (· ≤ ·) ∧
    (columnSet rows).Nodup ∧
    (∀ k, k ∈ columnSet rows ↔ ∃ r ∈ rows, k ∈ r) ∧
    (rows.Perm rows' → columnSet rows = columnSet rows') ∧
    sortedColumns (a ++ b) = sortedColumns (b ++ a) := by
  unfold columnSet sortedColumns
  refine ⟨Finset.sort_sorted _ _, Finset.sort_nodup _ _, ?_, ?_, ?_⟩
  · intro k
    simp [columnSet, sortedColumns, Finset.mem_sort, List.mem_toFinset, List.mem_flatten]
  · intro hperm
    have hts : rows.flatten.toFinset = rows'.flatten.toFinset := by
      apply Finset.ext
      intro x
      simp only [List.mem_toFinset, List.mem_flatten]
      constructor
      · rintro ⟨l, hl, hx⟩
        exact ⟨l, hperm.mem_iff.mp hl, hx⟩
      · rintro ⟨l, hl, hx⟩
        exact ⟨l, hperm.mem_iff.mpr hl, hx⟩
    simp [columnSet, sortedColumns, hts]
  · simp [sortedColumns, List.toFinset_append, Finset.union_comm]

/-- C9 witness: a concrete permutation of a two-row batch yields the
identical sorted column set. -/
theorem claim_C9_columnset_witness :
    columnSet [["b"], ["a", "c"]] = columnSet [["a", "c"], ["b"]] :=
  (claim_C9_columnset_deterministic [["b"], ["a", "c"]] [["a", "c"], ["b"]] [] []).2.2.2.1
    (List.Perm.swap ["a", "c"] ["b"] [])

/-- C10 counterexample: the flattener wired into the service
(`JsonProcessorAdapter.flatten_json`, the default) produces no entry at
all for a key whose value is an empty list — not an entry mapped to the
empty string. -/
theorem claim_C10_counterexample :
    flatten_json [("a", Json.arr [])] = [] ∧
    dictGet (flatten_json [("a", Json.arr [])]) "a" = none :=
  ⟨rfl, rfl⟩

/-- C10 amended: the `AdvancedJsonProcessorAdapter` flattener maps a key
whose value is an empty list to the empty string by default, with the
sentinel "[]" available exactly under its single boolean
`preserve_types` option; the basic adapter the service wires in omits
such keys entirely. -/
theorem claim_C10_empty_list_flattening (preserve_types : Bool)
    (fields : List (String × Json)) (key : String)
    (h : (key, Json.arr []) ∈ fields) :
    (key, Json.str (if preserve_types then "[]" else "")) ∈
      advFlattenFields preserve_types "" "_" fields "" := by
  induction fields with
  | nil => cases h
  | cons kv rest ih =>
    rcases List.mem_cons.mp h with h | h
    · rw [← h]
      simp [advFlattenFields, advFlattenValue]
    · simp only [advFlattenFields]
      exact List.mem_append_right _ (ih h)

/-- C10 witness: flattening an object with one empty-list key under the
default configuration yields the empty-string entry. -/
theorem claim_C10_empty_list_witness :
    (("a" : String), Json.str "") ∈ advFlattenFields false "" "_" [("a", Json.arr [])] "" :=
  claim_C10_empty_list_flattening false [("a", Json.arr [])] "a" (by simp)

/-- C3: `consolidate_files` is a total function of the collaborator
environment — no failure escapes its boundary; a missing artifact, a
first line without the `#` sentinel, or a present-but-unparsable header
all lead to the initial-run path, and a listing failure surfaces as a
result with `success = false` carrying the raised message. -/
theorem claim_C3_error_boundary (env : StorageEnv) (now : Int) :
    (∀ e, env.artifactContent = .error e →
      consolidate_files env now = initialRunPath env now) ∧
    (env.artifactContent = .ok .noHeader →
      consolidate_files env now = initialRunPath env now) ∧
    (∀ m, env.artifactContent = .ok (.corruptHeader m) →
      consolidate_files env now = initialRunPath env now) ∧
    (∀ e, env.fileList = .error e →
      (consolidate_files env now).success = false ∧
      (consolidate_files env now).error_message = some e ∧
      (consolidate_files env now).files_processed = 0) := by
  refine ⟨?_, ?_, ?_, ?_⟩
  · intro e ha
    unfold consolidate_files
    rw [ha]
  · intro ha
    unfold consolidate_files
    rw [ha]
  · intro m ha
    unfold consolidate_files
    rw [ha]
  · intro e hf
    have hinit : initialRunPath env now =
        { success := false, csv_content := "", metadata := createEmptyMetadata now,
          files_processed := 0, error_message := some e } := by
      unfold initialRunPath generateInitialCsv
      rw [hf]
    have hres : consolidate_files env now = initialRunPath env now := by
      unfold consolidate_files
      cases ha : env.artifactContent with
      | error msg => rfl
      | ok doc =>
        cases doc with
        | noHeader => rfl
        | corruptHeader m => rfl
        | parsed header body =>
          unfold appendNewData getNewFiles
          rw [hf]
    rw [hres, hinit]
    exact ⟨rfl, rfl, rfl⟩

/-- C3 witness: on an environment where both the artifact fetch and the
source listing raise, the run degrades to the initial path and reports
the failure instead of raising. -/
theorem claim_C3_error_boundary_witness :
    consolidate_files envC3 0 = initialRunPath envC3 0 ∧
    (consolidate_files envC3 0).success = false ∧
    (consolidate_files envC3 0).error_message = some "AccessDenied" :=
  ⟨(claim_C3_error_boundary envC3 0).1 "NoSuchKey" rfl,
   ((claim_C3_error_boundary envC3 0).2.2.2 "AccessDenied" rfl).1,
   ((claim_C3_error_boundary envC3 0).2.2.2 "AccessDenied" rfl).2.1⟩

/-- C2: when the incremental candidate list is empty the run is a no-op,
not an error: success with zero objects processed and the prior metadata
returned unchanged; because nothing is stored, re-running at any later
time yields the identical result (so the metadata is identical,
description included). -/
theorem claim_C2_noop_run (env : StorageEnv) (now now2 : Int) (header : MetaDict)
    (body : DataFrame)
    (ha : env.artifactContent = .ok (.parsed header body))
    (hempty : getNewFiles env (FileMetadata.from_dict (fixLastEntry header)).last_entry = .ok []) :
    consolidate_files env now =
      { success := true
        csv_content := ""
        metadata := FileMetadata.from_dict (fixLastEntry header)
        files_processed := 0
        error_message := some "No new files to process" } ∧
    consolidate_files env now2 = consolidate_files env now := by
  have hrun : ∀ t : Int, consolidate_files env t =
      { success := true
        csv_content := ""
        metadata := FileMetadata.from_dict (fixLastEntry header)
        files_processed := 0
        error_message := some "No new files to process" } := by
    intro t
    rw [consolidate_of_parsed ha]
    simp only [appendNewData]
    rw [hempty]
    simp
  exact ⟨hrun now, (hrun now2).trans (hrun now).symm⟩

/-- C2 witness: a concrete no-op incremental run returns success, zero
objects processed and the prior metadata unchanged, at two different
run times. -/
theorem claim_C2_noop_witness :
    consolidate_files envC2 1800000000 =
      { success := true
        csv_content := ""
        metadata := FileMetadata.from_dict (fixLastEntry headerC2)
        files_processed := 0
        error_message := some "No new files to process" } ∧
    consolidate_files envC2 1900000000 = consolidate_files envC2 1800000000 :=
  claim_C2_noop_run envC2 1800000000 1900000000 headerC2 bodyC1 rfl rfl

/-- C5: on any run that extracts prior metadata and can list the store,
the resulting metadata preserves `created_at` from the prior metadata
and never decreases `total_records` or `files_processed` relative to
it. -/
theorem claim_C5_metadata_monotonic (env : StorageEnv) (now : Int) (header : MetaDict)
    (body : DataFrame) (files : List String)
    (ha : env.artifactContent = .ok (.parsed header body))
    (hf : env.fileList = .ok files) :
    (consolidate_files env now).metadata.created_at =
        (FileMetadata.from_dict (fixLastEntry header)).created_at ∧
    (FileMetadata.from_dict (fixLastEntry header)).total_records ≤
        (consolidate_files env now).metadata.total_records ∧
    (FileMetadata.from_dict (fixLastEntry header)).files_processed ≤
        (consolidate_files env now).metadata.files_processed := by
  have hsome : ∃ nf, getNewFiles env (FileMetadata.from_dict (fixLastEntry header)).last_entry
      = .ok nf := by
    unfold getNewFiles
    rw [hf]
    exact ⟨_, rfl⟩
  obtain ⟨nf, hnf⟩ := hsome
  rw [consolidate_of_parsed ha]
  simp only [appendNewData]
  rw [hnf]
  by_cases hE : nf.isEmpty
  · simp [hE]
  · have hp := processJsonFiles_incremental_fields env now nf
      (FileMetadata.from_dict (fixLastEntry header))
    simp only [hE, Bool.false_eq_true, if_false]
    refine ⟨hp.1, ?_, ?_⟩
    · rw [hp.2.1]
      omega
    · rw [hp.2.2]
      omega

/-- C5 witness: monotonicity on the concrete incremental scenario
environment. -/
theorem claim_C5_metadata_monotonic_witness :
    (consolidate_files envC1 0).metadata.created_at =
        (FileMetadata.from_dict (fixLastEntry headerC1)).created_at ∧
    (FileMetadata.from_dict (fixLastEntry headerC1)).total_records ≤
        (consolidate_files envC1 0).metadata.total_records ∧
    (FileMetadata.from_dict (fixLastEntry headerC1)).files_processed ≤
        (consolidate_files envC1 0).metadata.files_processed :=
  claim_C5_metadata_monotonic envC1 0 headerC1 bodyC1 _ rfl rfl

/-- C6: the incremental new-file selection returns exactly the listed
objects whose derived content timestamp is strictly greater than the
prior `last_entry` converted to the device epoch; an object whose
timestamp translates to exactly the threshold is excluded. -/
theorem claim_C6_strict_threshold (env : StorageEnv) (T : Int)
    (files selected : List String)
    (hf : env.fileList = .ok files)
    (hsel : getNewFiles env T = .ok selected) :
    (∀ p, p ∈ selected ↔ p ∈ files ∧
      ∃ ts, contentTimestamp env p = some ts ∧ unix_to_micropython_timestamp T < ts) ∧
    (∀ p ts, contentTimestamp env p = some ts →
      micropython_to_unix_timestamp ts = T → p ∉ selected) := by
  unfold getNewFiles at hsel
  rw [hf] at hsel
  injection hsel with hsel
  subst hsel
  refine ⟨?_, ?_⟩
  · intro p
    rw [List.mem_filter]
    constructor
    · rintro ⟨hpl, hpred⟩
      refine ⟨hpl, ?_⟩
      rcases hct : contentTimestamp env p with _ | ts
      · rw [hct] at hpred
        cases hpred
      · rw [hct] at hpred
        simp only [decide_eq_true_eq] at hpred
        exact ⟨ts, rfl, hpred⟩
    · rintro ⟨hpl, ts, hct, hlt⟩
      refine ⟨hpl, ?_⟩
      rw [hct]
      simpa using hlt
  · intro p ts hct heq hmem
    rw [List.mem_filter, hct] at hmem
    have hlt := hmem.2
    simp only [decide_eq_true_eq] at hlt
    unfold micropython_to_unix_timestamp at heq
    unfold unix_to_micropython_timestamp at hlt
    omega

/-- C6 witness: with the prior `last_entry` at exactly the Unix
translation of the first candidate's device timestamp, that candidate is
excluded from the concrete selection. -/
theorem claim_C6_strict_threshold_witness :
    ("raw-data/airq_a.json" : String) ∉
      (["raw-data/airq_b.json", "raw-data/airq_c.json"] : List String) :=
  (claim_C6_strict_threshold envC1 1646684800 _ _ rfl rfl).2
    "raw-data/airq_a.json" 700000000 rfl rfl

/-- C4 counterexample: in an initial run over one well-formed and one
malformed source object, the returned result reports
`files_processed = 2` — the skipped malformed object is counted among
the processed files — while the metadata counts only the one
successfully parsed object. -/
theorem claim_C4_counterexample :
    (consolidate_files envC4 1700000000).files_processed = 2 ∧
    (consolidate_files envC4 1700000000).metadata.files_processed = 1 ∧
    (consolidate_files envC4 1700000000).metadata.total_records = 1 :=
  ⟨rfl, rfl, rfl⟩

/-- C4 amended: a malformed candidate object is skipped without aborting
the run and is excluded from the metadata's processed-file and record
counts, but `ConsolidationResult.files_processed` reports the full
candidate count, skipped objects included. -/
theorem claim_C4_skip_counting (env : StorageEnv) (now : Int) (e : String)
    (files : List String)
    (ha : env.artifactContent = .error e)
    (hf : env.fileList = .ok files) :
    (consolidate_files env now).metadata.files_processed =
      (files.countP (fun p => (env.sourceObject p).isSome) : Int) ∧
    (consolidate_files env now).metadata.total_records =
      (files.countP (fun p => (env.sourceObject p).isSome) : Int) ∧
    (consolidate_files env now).files_processed = files.length := by
  have hred : consolidate_files env now = initialRunPath env now := by
    unfold consolidate_files
    rw [ha]
  rw [hred]
  unfold initialRunPath generateInitialCsv
  rw [hf]
  by_cases hE : files.isEmpty
  · have hnil : files = [] := List.isEmpty_iff.mp hE
    subst hnil
    simp [createEmptyMetadata]
  · have hp := processJsonFiles_initial_fields env now files
    simp only [hE, Bool.false_eq_true, if_false]
    exact ⟨hp.2, hp.1, trivial⟩

/-- C4 witness: the amended counting law instantiated on the concrete
initial run with one malformed object. -/
theorem claim_C4_skip_counting_witness :
    (consolidate_files envC4 1700000000).metadata.files_processed =
      ((["raw-data/airq_a.json", "raw-data/airq_bad.json"].countP
        (fun p => (envC4.sourceObject p).isSome)) : Int) ∧
    (consolidate_files envC4 1700000000).files_processed =
      ["raw-data/airq_a.json", "raw-data/airq_bad.json"].length :=
  ⟨(claim_C4_skip_counting envC4 1700000000 "NoSuchKey" _ rfl rfl).1,
   (claim_C4_skip_counting envC4 1700000000 "NoSuchKey" _ rfl rfl).2.2⟩

/-- C1: incremental-run scenario — with a prior artifact recording 2
records and `last_entry` T, and three candidate objects of which one has
a Unix-translated timestamp at most T and two have timestamps strictly
greater than T, the run processes exactly 2 new objects and the
resulting metadata records `total_records = 4`. -/
theorem claim_C1_incremental_scenario (env : StorageEnv) (now T t1 t2 t3 : Int)
    (header : MetaDict) (body : DataFrame) (f1 f2 f3 : String)
    (ha : env.artifactContent = .ok (.parsed header body))
    (hle : header.last_entry = some T)
    (hT : 1000000000 ≤ T)
    (htr : header.total_records = some 2)
    (hf : env.fileList = .ok [f1, f2, f3])
    (h1 : contentTimestamp env f1 = some t1)
    (h2 : contentTimestamp env f2 = some t2)
    (h3 : contentTimestamp env f3 = some t3)
    (ht1 : micropython_to_unix_timestamp t1 ≤ T)
    (ht2 : T < micropython_to_unix_timestamp t2)
    (ht3 : T < micropython_to_unix_timestamp t3) :
    (consolidate_files env now).files_processed = 2 ∧
    (consolidate_files env now).metadata.total_records = 4 := by
  have hfix : fixLastEntry header = header := by
    unfold fixLastEntry
    rw [hle]
    have hTlt : ¬ (T < 1000000000) := by omega
    simp [hTlt]
  have hemle : (FileMetadata.from_dict (fixLastEntry header)).last_entry = T := by
    rw [hfix]
    simp [FileMetadata.from_dict, hle]
  have hemtr : (FileMetadata.from_dict (fixLastEntry header)).total_records = 2 := by
    rw [hfix]
    simp [FileMetadata.from_dict, htr]
  have hb1 : decide (t1 > unix_to_micropython_timestamp T) = false := by
    simp only [decide_eq_false_iff_not]
    unfold micropython_to_unix_timestamp at ht1
    unfold unix_to_micropython_timestamp
    omega
  have hb2 : decide (t2 > unix_to_micropython_timestamp T) = true := by
    simp only [decide_eq_true_eq]
    unfold micropython_to_unix_timestamp at ht2
    unfold unix_to_micropython_timestamp
    omega
  have hb3 : decide (t3 > unix_to_micropython_timestamp T) = true := by
    simp only [decide_eq_true_eq]
    unfold micropython_to_unix_timestamp at ht3
    unfold unix_to_micropython_timestamp
    omega
  have hnf : getNewFiles env T = .ok [f2, f3] := by
    unfold getNewFiles
    rw [hf]
    simp [List.filter_cons, h1, h2, h3, hb1, hb2, hb3]
  have hs2 := contentTimestamp_isSome h2
  have hs3 := contentTimestamp_isSome h3
  have hcount : [f2, f3].countP (fun p => (env.sourceObject p).isSome) = 2 := by
    simp [List.countP_cons, hs2, hs3]
  have hp := processJsonFiles_incremental_fields env now [f2, f3]
    (FileMetadata.from_dict (fixLastEntry header))
  rw [consolidate_of_parsed ha]
  simp only [appendNewData]
  rw [hemle, hnf]
  simp only [List.isEmpty_cons, Bool.false_eq_true, if_false]
  refine ⟨rfl, ?_⟩
  rw [hp.2.1, hcount, hemtr]
  norm_num

/-- C1 witness: the incremental scenario instantiated on a concrete
store with threshold 1700000000 and candidate device timestamps
700000000, 800000000 and 900000000. -/
theorem claim_C1_incremental_witness :
    (consolidate_files envC1 0).files_processed = 2 ∧
    (consolidate_files envC1 0).metadata.total_records = 4 :=
  claim_C1_incremental_scenario envC1 0 1700000000 700000000 800000000 900000000
    headerC1 bodyC1 "raw-data/airq_a.json" "raw-data/airq_b.json" "raw-data/airq_c.json"
    rfl rfl (by decide) rfl rfl rfl rfl rfl (by decide) (by decide) (by decide)

/-- C8 witness: the spec's example value escapes to the quoted, doubled
form and parses back to the original. -/
theorem claim_C8_csv_escaping_witness :
    escape_csv_value ("He said, \"hi\"\n".toList) =
      '"' :: (doubleQuotes ("He said, \"hi\"\n".toList) ++ ['"']) ∧
    unescape_csv_value (escape_csv_value ("He said, \"hi\"\n".toList)) =
      "He said, \"hi\"\n".toList :=
  ⟨(claim_C8_csv_escaping _).1 (by decide), (claim_C8_csv_escaping _).2.2.2⟩
